import Mathlib

/-!
Verification of the audio capture/transcription service (`src/audio_service.py`)
against its specification.

The Python source is shallowly embedded as pure Lean functions.  Effectful
operations (opening the wave container, setting its format parameters, opening
the input stream, frames written by the stream callback, closing handles,
reading the audio file, calling the recognition service, deleting a file) are
recorded as an explicit event trace, and the points at which the Python code
can raise are modelled by `Option String` exception fields in an environment
record: `none` means the call succeeds, `some e` means it raises an exception
whose string form is `e`.  The Flask/HTTP layer's JSON dictionaries are
embedded as a record of optional fields, one per key that any handler ever
puts in a response dictionary.
-/

/-- One device record as reported by the platform audio subsystem
(`p.get_device_info_by_index` / the loopback generator): the keys of the
PyAudio device-info dictionary that `capture_audio` reads. -/
structure AudioEndpoint where
  index : Nat
  name : String
  isLoopbackDevice : Bool
  maxInputChannels : Nat
  defaultSampleRate : Nat
  deriving Repr, DecidableEq

/-- Does `needle` occur as a contiguous run inside `hay`? -/
def charsContain (hay needle : List Char) : Bool :=
  match hay with
  | [] => needle.isEmpty
  | _ :: t => needle.isPrefixOf hay || charsContain t needle

/-- Python's substring test `needle in hay` on strings. -/
def strContains (hay needle : String) : Bool :=
  charsContain hay.data needle.data

/-- `p.get_loopback_device_info_generator()`: enumerates, in order, the
devices of the platform whose `isLoopbackDevice` flag is set. -/
def loopbackDevices (devices : List AudioEndpoint) : List AudioEndpoint :=
  devices.filter (fun d => d.isLoopbackDevice)

/-- Lines 31-37 of `capture_audio`: the device-resolution branch.  If the
default output device is already a loopback device it is kept; otherwise the
`for`/`else` loop scans the loopback generator and keeps the first device
whose name contains the default device's name (`default_speakers["name"] in
loopback["name"]`), and the `else` arm (no `break`) yields `none`, which
`capture_audio` turns into the device-not-found error. -/
def resolveCaptureDevice (devices : List AudioEndpoint)
    (default_speakers : AudioEndpoint) : Option AudioEndpoint :=
  if default_speakers.isLoopbackDevice then
    some default_speakers
  else
    (loopbackDevices devices).find? (fun lb => strContains lb.name default_speakers.name)

/-- A JSON response dictionary.  Each field models one key that the handlers
of `audio_service.py` ever set; `none` means the key is absent from the
dictionary. -/
structure ResultDict where
  success : Option Bool
  filename : Option String
  filepath : Option String
  error : Option String
  transcription : Option String
  audio_file : Option String
  message : Option String
  deriving Repr, DecidableEq

/-- A dictionary `{"error": msg}`, the failure shape every handler returns. -/
def errResult (msg : String) : ResultDict :=
  ⟨none, none, none, some msg, none, none, none⟩

/-- The success dictionary of `capture_audio`:
`{"success": True, "filename": filename, "filepath": os.path.abspath(filename)}`. -/
def okCapture (filename filepath : String) : ResultDict :=
  ⟨some true, some filename, some filepath, none, none, none, none⟩

/-- The success dictionary of `transcribe_audio`:
`{"success": True, "transcription": text}`. -/
def okTranscribe (text : String) : ResultDict :=
  ⟨some true, none, none, none, some text, none, none⟩

/-- The success dictionary of `capture_and_transcribe_endpoint`. -/
def combineOk (audioFile filepath text : String) : ResultDict :=
  ⟨some true, none, some filepath, none, some text, some audioFile, none⟩

/-- The success dictionary of `cleanup_files`. -/
def okCleanup (msg : String) : ResultDict :=
  ⟨some true, none, none, none, none, none, some msg⟩

/-- Observable side effects of the service, in the order they happen. -/
inductive Event where
  /-- `wave.open(filename, 'wb')` succeeded: the output container is created. -/
  | fileCreate (filename : String)
  /-- `wave_file.setnchannels(n)`. -/
  | setChannels (n : Nat)
  /-- `wave_file.setsampwidth(n)` (bytes per sample). -/
  | setSampWidth (n : Nat)
  /-- `wave_file.setframerate(r)`. -/
  | setFrameRate (r : Nat)
  /-- `p.open(..., input_device_index=i, ...)` succeeded: input stream started. -/
  | streamOpen (deviceIndex : Nat)
  /-- the stream callback ran `wave_file.writeframes(in_data)`. -/
  | writeFrames (data : String)
  /-- the `with ... as stream` block exited: input stream stopped and closed. -/
  | streamClose
  /-- `wave_file.close()`: the container is finalized and its handle released. -/
  | fileClose
  /-- `sr.AudioFile(path)` opened and `recognizer.record` read the file. -/
  | audioFileRead (path : String)
  /-- `recognizer.recognize_google(audio, language=language)` was invoked. -/
  | recognizeCall (path : String) (language : String)
  /-- `os.remove(path)`. -/
  | fileDelete (path : String)
  deriving Repr, DecidableEq

/-- `os.path.abspath(filename)` for a bare file name: join the process's
working directory with the name. -/
def abspath (cwd filename : String) : String :=
  cwd ++ "/" ++ filename

/-- The environment a `capture_audio` call runs in: what the platform audio
subsystem reports and which of the fallible calls raise. -/
structure CaptureEnv where
  /-- `p.get_host_api_info_by_type(pyaudio.paWASAPI)` succeeds (`false` models
  the `OSError` branch). -/
  wasapiOk : Bool
  /-- the device behind `wasapi_info["defaultOutputDevice"]`. -/
  default_speakers : AudioEndpoint
  /-- all devices exposed by the platform (feeds the loopback generator). -/
  devices : List AudioEndpoint
  /-- the process working directory, used by `os.path.abspath`. -/
  cwd : String
  /-- exception raised by `wave.open(filename, 'wb')`, if any. -/
  waveOpenExc : Option String
  /-- exception raised by `p.open(...)`, if any. -/
  streamOpenExc : Option String
  /-- exception raised inside the `with ... as stream` body (during
  `time.sleep(duration)`), if any. -/
  streamRunExc : Option String
  /-- the frame buffers the platform delivers to the callback while the
  stream is open. -/
  frames : List String
  deriving Repr, DecidableEq

/-- `AudioService.capture_audio(track_name, duration, chunk_size)`
(lines 16-65), returning the response dictionary together with the trace of
observable effects.  The whole body sits in a `try`/`except Exception` that
turns any raised exception `e` into `{"error": f"Audio capture failed: {e}"}`;
note that no branch between `wave.open` and the final `wave_file.close()`
closes the wave file when an exception interrupts it. -/
def capture_audio (env : CaptureEnv) (track_name : String)
    (duration chunk_size : Nat) : ResultDict × List Event :=
  let filename := track_name ++ ".wav"
  if env.wasapiOk = false then
    (errResult "WASAPI is not available on the system", [])
  else
    match resolveCaptureDevice env.devices env.default_speakers with
    | none => (errResult "Default loopback output device not found", [])
    | some dev =>
      match env.waveOpenExc with
      | some e => (errResult ("Audio capture failed: " ++ e), [])
      | none =>
        let setupEvents : List Event :=
          [Event.fileCreate filename,
           Event.setChannels dev.maxInputChannels,
           Event.setSampWidth 2,
           Event.setFrameRate dev.defaultSampleRate]
        match env.streamOpenExc with
        | some e => (errResult ("Audio capture failed: " ++ e), setupEvents)
        | none =>
          let streamingEvents : List Event :=
            setupEvents ++ Event.streamOpen dev.index :: env.frames.map Event.writeFrames
          match env.streamRunExc with
          | some e =>
            (errResult ("Audio capture failed: " ++ e),
             streamingEvents ++ [Event.streamClose])
          | none =>
            (okCapture filename (abspath env.cwd filename),
             streamingEvents ++ [Event.streamClose, Event.fileClose])

/-- What `recognizer.recognize_google` does: returns text, raises
`sr.UnknownValueError`, raises `sr.RequestError(msg)`, or raises some other
exception. -/
inductive RecognizeOutcome where
  | ok (text : String)
  | unknownValue
  | requestError (msg : String)
  | otherFailure (msg : String)
  deriving Repr, DecidableEq

/-- The environment a `transcribe_audio` call runs in. -/
structure TranscribeEnv where
  /-- the set of paths for which `os.path.exists` is true. -/
  existingFiles : List String
  /-- exception raised by `sr.AudioFile`/`recognizer.record`, if any. -/
  audioReadExc : Option String
  /-- behaviour of the `recognize_google` call. -/
  outcome : RecognizeOutcome
  deriving Repr, DecidableEq

/-- `AudioService.transcribe_audio(audio_file_path, language)` (lines 67-86),
returning the response dictionary together with the trace of observable
effects.  The `except` clauses distinguish `sr.UnknownValueError`,
`sr.RequestError` and any other `Exception`. -/
def transcribe_audio (env : TranscribeEnv) (audio_file_path language : String) :
    ResultDict × List Event :=
  if env.existingFiles.contains audio_file_path = false then
    (errResult ("Audio file not found: " ++ audio_file_path), [])
  else
    match env.audioReadExc with
    | some e =>
      (errResult ("Transcription failed: " ++ e), [Event.audioFileRead audio_file_path])
    | none =>
      let evs : List Event :=
        [Event.audioFileRead audio_file_path,
         Event.recognizeCall audio_file_path language]
      match env.outcome with
      | RecognizeOutcome.ok t => (okTranscribe t, evs)
      | RecognizeOutcome.unknownValue =>
        (errResult "Google Speech Recognition could not understand the audio", evs)
      | RecognizeOutcome.requestError e =>
        (errResult ("Google Speech Recognition request failed: " ++ e), evs)
      | RecognizeOutcome.otherFailure e =>
        (errResult ("Transcription failed: " ++ e), evs)

/-- The `/capture_and_transcribe` handler (lines 128-157): run
`capture_audio`; if its dictionary has an `"error"` key return it with HTTP
status 500; otherwise run `transcribe_audio` on `capture_result["filepath"]`;
if that has an `"error"` key return it with status 500; otherwise return the
combined success dictionary with status 200.  The result pairs the response
dictionary and HTTP status with the combined effect trace. -/
def capture_and_transcribe_endpoint (cenv : CaptureEnv) (tenv : TranscribeEnv)
    (track_name : String) (duration chunk_size : Nat) (language : String) :
    (ResultDict × Nat) × List Event :=
  let cres := capture_audio cenv track_name duration chunk_size
  if cres.fst.error.isSome then
    ((cres.fst, 500), cres.snd)
  else
    let tres := transcribe_audio tenv (cres.fst.filepath.getD "") language
    if tres.fst.error.isSome then
      ((tres.fst, 500), cres.snd ++ tres.snd)
    else
      ((combineOk (cres.fst.filename.getD "") (cres.fst.filepath.getD "")
          (tres.fst.transcription.getD ""), 200),
       cres.snd ++ tres.snd)

/-- The `/cleanup` handler (lines 159-173): delete the file if the path was
given and exists, else report not-found with status 400. -/
def cleanup_files (existingFiles : List String) (file_path : Option String) :
    (ResultDict × Nat) × List Event :=
  match file_path with
  | some fp =>
    if existingFiles.contains fp then
      ((okCleanup ("File " ++ fp ++ " deleted"), 200), [Event.fileDelete fp])
    else
      ((errResult "File not found or path not provided", 400), [])
  | none => ((errResult "File not found or path not provided", 400), [])

/-- Is this event the `recognize_google` invocation? -/
def isRecognizeEvent : Event → Bool
  | Event.recognizeCall _ _ => true
  | _ => false

/-- Is this event an `os.remove`? -/
def isFileDeleteEvent : Event → Bool
  | Event.fileDelete _ => true
  | _ => false

/-- Is this event a `wave.open(_, 'wb')` container creation? -/
def isFileCreateEvent : Event → Bool
  | Event.fileCreate _ => true
  | _ => false

/-! Concrete fixtures used by witnesses and counterexamples. -/

/-- A default output device that is not itself loopback-capable. -/
def epSpeakers : AudioEndpoint := ⟨3, "Speakers", false, 2, 48000⟩

/-- An input device that is not loopback-capable. -/
def epMic : AudioEndpoint := ⟨1, "Microphone", false, 1, 44100⟩

/-- A loopback device whose name does not contain "Speakers". -/
def epLoopOther : AudioEndpoint := ⟨9, "Headphones [Loopback]", true, 2, 44100⟩

/-- The loopback twin of `epSpeakers`. -/
def epLoopA : AudioEndpoint := ⟨7, "Speakers [Loopback]", true, 2, 48000⟩

/-- A second loopback device whose name also contains "Speakers". -/
def epLoopB : AudioEndpoint := ⟨8, "Speakers 2 [Loopback]", true, 2, 48000⟩

/-- A fault-free capture environment whose loopback generator lists a
non-matching device before two matching ones. -/
def cenvOk : CaptureEnv :=
  ⟨true, epSpeakers, [epMic, epLoopOther, epLoopA, epLoopB], "/rec",
   none, none, none, ["aa", "bb"]⟩

/-- An environment with no loopback device matching the default output. -/
def cenvNoMatch : CaptureEnv :=
  ⟨true, epSpeakers, [epMic, epLoopOther], "/rec", none, none, none, []⟩

/-- An environment where the default output is already loopback but
`p.open` raises `Exception("device busy")`. -/
def cenvStreamFail : CaptureEnv :=
  ⟨true, epLoopA, [epLoopA], "/rec", none, some "device busy", none, []⟩

/-- Transcription environment: the captured file exists, the recogniser
raises `sr.UnknownValueError`. -/
def tenvUnknown : TranscribeEnv :=
  ⟨["/rec/t1.wav"], none, RecognizeOutcome.unknownValue⟩

/-- Transcription environment: the captured file exists and the recogniser
returns "hello world". -/
def tenvHello : TranscribeEnv :=
  ⟨["/rec/t1.wav"], none, RecognizeOutcome.ok "hello world"⟩

/-- Transcription environment in which no file exists on disk. -/
def tenvEmpty : TranscribeEnv :=
  ⟨[], none, RecognizeOutcome.ok "hello world"⟩

/-! Helper lemmas shared by the claim theorems. -/

/-- Every element of the loopback generator has the loopback flag set. -/
theorem mem_loopbackDevices {d : AudioEndpoint} {devices : List AudioEndpoint}
    (h : d ∈ loopbackDevices devices) : d.isLoopbackDevice = true := by
  have := List.mem_filter.mp h
  simpa using this.2

/-- `C1`: for every device list in which the default output endpoint's
loopback flag is false and at least one loopback-flagged endpoint's display
name contains the default output endpoint's display name as a substring, the
device resolver of `capture_audio` selects the first such loopback endpoint
in enumeration order: the loopback generator's output splits as
`pre ++ m :: post` where `m` is the selected endpoint, `m` matches, and
nothing in `pre` matches. -/
theorem resolver_selects_first_matching_loopback
    (devices : List AudioEndpoint) (ds : AudioEndpoint)
    (h1 : ds.isLoopbackDevice = false)
    (h2 : ∃ lb ∈ loopbackDevices devices, strContains lb.name ds.name = true) :
    ∃ m pre post,
      resolveCaptureDevice devices ds = some m ∧
      strContains m.name ds.name = true ∧
      m.isLoopbackDevice = true ∧
      loopbackDevices devices = pre ++ m :: post ∧
      ∀ x ∈ pre, strContains x.name ds.name = false := by
  have hsome :
      ((loopbackDevices devices).find? (fun lb => strContains lb.name ds.name)).isSome := by
    rw [List.find?_isSome]
    obtain ⟨lb, hmem, hc⟩ := h2
    exact ⟨lb, hmem, hc⟩
  obtain ⟨m, hm⟩ := Option.isSome_iff_exists.mp hsome
  have hspec := List.find?_eq_some.mp hm
  obtain ⟨hpm, pre, post, hsplit, hpre⟩ := hspec
  refine ⟨m, pre, post, ?_, hpm, ?_, hsplit, ?_⟩
  · rw [resolveCaptureDevice, if_neg (by simp [h1])]
    exact hm
  · exact mem_loopbackDevices (by rw [hsplit]; exact List.mem_append_right pre (List.mem_cons_self m post))
  · intro x hx
    have := hpre x hx
    simpa using this

/-- Witness for `C1`: with devices `[epMic, epLoopOther, epLoopA, epLoopB]`
and default output `epSpeakers`, the resolver picks `epLoopA`, the first
loopback device whose name contains "Speakers". -/
theorem resolver_selects_first_matching_loopback_witness :
    ∃ m pre post,
      resolveCaptureDevice [epMic, epLoopOther, epLoopA, epLoopB] epSpeakers = some m ∧
      strContains m.name epSpeakers.name = true ∧
      m.isLoopbackDevice = true ∧
      loopbackDevices [epMic, epLoopOther, epLoopA, epLoopB] = pre ++ m :: post ∧
      ∀ x ∈ pre, strContains x.name epSpeakers.name = false :=
  resolver_selects_first_matching_loopback [epMic, epLoopOther, epLoopA, epLoopB]
    epSpeakers (by decide) ⟨epLoopA, by decide, by decide⟩

/-- `C2`: whenever the default output endpoint's loopback flag is true, the
resolver returns that endpoint itself, unchanged; and the result does not
depend on the device list at all (no other endpoint is scanned). -/
theorem resolver_keeps_loopback_default
    (devices otherDevices : List AudioEndpoint) (ds : AudioEndpoint)
    (h : ds.isLoopbackDevice = true) :
    resolveCaptureDevice devices ds = some ds ∧
    resolveCaptureDevice otherDevices ds = resolveCaptureDevice devices ds := by
  constructor
  · simp [resolveCaptureDevice, h]
  · simp [resolveCaptureDevice, h]

/-- Witness for `C2`: the loopback-flagged `epLoopA` is returned unchanged,
identically for two different device lists. -/
theorem resolver_keeps_loopback_default_witness :
    resolveCaptureDevice [epMic] epLoopA = some epLoopA ∧
    resolveCaptureDevice [epLoopB, epSpeakers] epLoopA =
      resolveCaptureDevice [epMic] epLoopA :=
  resolver_keeps_loopback_default [epMic] [epLoopB, epSpeakers] epLoopA (by decide)

/-- `C3`: when the default output endpoint is not loopback-flagged and no
loopback-flagged endpoint's name contains its name, `capture_audio` returns
the device-not-found error dictionary and the effect trace is empty: no
output file is created and no stream is opened. -/
theorem capture_no_match_is_device_not_found
    (cenv : CaptureEnv) (tn : String) (d cs : Nat)
    (hw : cenv.wasapiOk = true)
    (h1 : cenv.default_speakers.isLoopbackDevice = false)
    (h2 : ∀ lb ∈ loopbackDevices cenv.devices,
      strContains lb.name cenv.default_speakers.name = false) :
    capture_audio cenv tn d cs =
      (errResult "Default loopback output device not found", []) := by
  have hres : resolveCaptureDevice cenv.devices cenv.default_speakers = none := by
    rw [resolveCaptureDevice, if_neg (by simp [h1]), List.find?_eq_none]
    intro x hx
    simp [h2 x hx]
  simp [capture_audio, hw, hres]

/-- Witness for `C3`: with only `epMic` and `epLoopOther` exposed and
default output "Speakers", capture fails with the not-found error and an
empty trace. -/
theorem capture_no_match_is_device_not_found_witness :
    capture_audio cenvNoMatch "t1" 2 512 =
      (errResult "Default loopback output device not found", []) :=
  capture_no_match_is_device_not_found cenvNoMatch "t1" 2 512 (by decide) (by decide)
    (by decide)

/-- `C4` (evaluation at the failing input): when `p.open` raises
`Exception("device busy")` after the wave container was opened,
`capture_audio` does return the wrapped failure, but the trace contains the
container-creation event with no matching `fileClose`: the `wave_file.close()`
on line 61 is skipped and no `finally`/`with` releases the wave-file handle
on this path, contradicting the claim that the handle is released before
return. -/
theorem capture_stream_open_failure_leaks_file_handle :
    (capture_audio cenvStreamFail "t1" 2 512).fst =
      errResult "Audio capture failed: device busy" ∧
    Event.fileCreate "t1.wav" ∈ (capture_audio cenvStreamFail "t1" 2 512).snd ∧
    Event.fileClose ∉ (capture_audio cenvStreamFail "t1" 2 512).snd := by
  decide

/-- `C5` (counterexample): a failing capture returns `{"error": ...}` with no
`"success"` key at all, so the result is neither of the two claimed shapes
`{success: true, path}` / `{success: false, error}`. -/
theorem capture_failure_carries_no_success_flag :
    (capture_audio cenvNoMatch "t1" 2 512).fst.error =
      some "Default loopback output device not found" ∧
    (capture_audio cenvNoMatch "t1" 2 512).fst.success = none ∧
    ¬((capture_audio cenvNoMatch "t1" 2 512).fst.success = some true ∨
      (capture_audio cenvNoMatch "t1" 2 512).fst.success = some false) := by
  decide

/-- `C5` (amended): every capture result is either a success dictionary with
`success = true`, no error key and the absolute output path, or a failure
dictionary carrying an error message and no `success` key; likewise every
transcription result; both operations are total functions, so no exception
escapes the boundary. -/
theorem capture_and_transcribe_results_structured
    (cenv : CaptureEnv) (tenv : TranscribeEnv) (tn p lang : String) (d cs : Nat) :
    (((capture_audio cenv tn d cs).fst.success = some true ∧
      (capture_audio cenv tn d cs).fst.error = none ∧
      (capture_audio cenv tn d cs).fst.filepath =
        some (abspath cenv.cwd (tn ++ ".wav"))) ∨
     ((capture_audio cenv tn d cs).fst.success = none ∧
      ((capture_audio cenv tn d cs).fst.error).isSome = true)) ∧
    (((transcribe_audio tenv p lang).fst.success = some true ∧
      (transcribe_audio tenv p lang).fst.error = none) ∨
     ((transcribe_audio tenv p lang).fst.success = none ∧
      ((transcribe_audio tenv p lang).fst.error).isSome = true)) := by
  constructor
  · cases hw : cenv.wasapiOk with
    | false => right; simp [capture_audio, hw, errResult]
    | true =>
      cases hres : resolveCaptureDevice cenv.devices cenv.default_speakers with
      | none => right; simp [capture_audio, hw, hres, errResult]
      | some dev =>
        cases hwave : cenv.waveOpenExc with
        | some e => right; simp [capture_audio, hw, hres, hwave, errResult]
        | none =>
          cases hso : cenv.streamOpenExc with
          | some e => right; simp [capture_audio, hw, hres, hwave, hso, errResult]
          | none =>
            cases hsr : cenv.streamRunExc with
            | some e =>
              right; simp [capture_audio, hw, hres, hwave, hso, hsr, errResult]
            | none =>
              left; simp [capture_audio, hw, hres, hwave, hso, hsr, okCapture]
  · cases hc : tenv.existingFiles.contains p with
    | false =>
      right
      have hm : p ∉ tenv.existingFiles := by simpa using hc
      simp [transcribe_audio, hc, hm, errResult]
    | true =>
      have hm : p ∈ tenv.existingFiles := by simpa using hc
      cases hread : tenv.audioReadExc with
      | some e => right; simp [transcribe_audio, hc, hm, hread, errResult]
      | none =>
        cases hout : tenv.outcome with
        | ok t => left; simp [transcribe_audio, hc, hm, hread, hout, okTranscribe]
        | unknownValue => right; simp [transcribe_audio, hc, hm, hread, hout, errResult]
        | requestError e => right; simp [transcribe_audio, hc, hm, hread, hout, errResult]
        | otherFailure e => right; simp [transcribe_audio, hc, hm, hread, hout, errResult]

/-- The normal form of a fault-free capture: the success dictionary and the
full effect trace, in order. -/
theorem capture_audio_success_spec
    (cenv : CaptureEnv) (dev : AudioEndpoint) (tn : String) (d cs : Nat)
    (hw : cenv.wasapiOk = true)
    (hwave : cenv.waveOpenExc = none)
    (hso : cenv.streamOpenExc = none)
    (hsr : cenv.streamRunExc = none)
    (hres : resolveCaptureDevice cenv.devices cenv.default_speakers = some dev) :
    capture_audio cenv tn d cs =
      (okCapture (tn ++ ".wav") (abspath cenv.cwd (tn ++ ".wav")),
       Event.fileCreate (tn ++ ".wav") ::
       Event.setChannels dev.maxInputChannels ::
       Event.setSampWidth 2 ::
       Event.setFrameRate dev.defaultSampleRate ::
       Event.streamOpen dev.index ::
       (cenv.frames.map Event.writeFrames ++ [Event.streamClose, Event.fileClose])) := by
  simp [capture_audio, hw, hres, hwave, hso, hsr]

/-- `C6`: on a fault-free capture the trace is exactly: create the container,
set its channel count and sample rate from the resolved endpoint and the
sample width to 2 bytes (16-bit signed PCM) — all before the stream opens and
hence before any `writeFrames` — then open the stream on the resolved
endpoint, write every delivered frame, close the input stream, and only then
finalize and close the container (`streamClose` strictly precedes
`fileClose`). -/
theorem capture_success_format_before_data_and_close_order
    (cenv : CaptureEnv) (dev : AudioEndpoint) (tn : String) (d cs : Nat)
    (hw : cenv.wasapiOk = true)
    (hwave : cenv.waveOpenExc = none)
    (hso : cenv.streamOpenExc = none)
    (hsr : cenv.streamRunExc = none)
    (hres : resolveCaptureDevice cenv.devices cenv.default_speakers = some dev) :
    capture_audio cenv tn d cs =
      (okCapture (tn ++ ".wav") (abspath cenv.cwd (tn ++ ".wav")),
       Event.fileCreate (tn ++ ".wav") ::
       Event.setChannels dev.maxInputChannels ::
       Event.setSampWidth 2 ::
       Event.setFrameRate dev.defaultSampleRate ::
       Event.streamOpen dev.index ::
       (cenv.frames.map Event.writeFrames ++ [Event.streamClose, Event.fileClose])) :=
  capture_audio_success_spec cenv dev tn d cs hw hwave hso hsr hres

/-- Witness for `C6`: the fault-free environment `cenvOk` resolves to
`epLoopA` and produces exactly the ordered trace. -/
theorem capture_success_format_before_data_and_close_order_witness :
    capture_audio cenvOk "t1" 2 512 =
      (okCapture ("t1" ++ ".wav") (abspath cenvOk.cwd ("t1" ++ ".wav")),
       Event.fileCreate ("t1" ++ ".wav") ::
       Event.setChannels epLoopA.maxInputChannels ::
       Event.setSampWidth 2 ::
       Event.setFrameRate epLoopA.defaultSampleRate ::
       Event.streamOpen epLoopA.index ::
       (cenvOk.frames.map Event.writeFrames ++ [Event.streamClose, Event.fileClose])) :=
  capture_success_format_before_data_and_close_order cenvOk epLoopA "t1" 2 512
    rfl rfl rfl rfl (by decide)

/-- The stream callback's writes contain no `recognize_google` invocation. -/
theorem countP_recognize_map_writeFrames (l : List String) :
    (l.map Event.writeFrames).countP isRecognizeEvent = 0 := by
  induction l with
  | nil => rfl
  | cons a t ih => simp [List.countP_cons, isRecognizeEvent, ih]

/-- The stream callback's writes contain no `os.remove`. -/
theorem countP_delete_map_writeFrames (l : List String) :
    (l.map Event.writeFrames).countP isFileDeleteEvent = 0 := by
  induction l with
  | nil => rfl
  | cons a t ih => simp [List.countP_cons, isFileDeleteEvent, ih]

/-- The stream callback's writes create no container file. -/
theorem filter_fileCreate_map_writeFrames (l : List String) :
    (l.map Event.writeFrames).filter isFileCreateEvent = [] := by
  induction l with
  | nil => rfl
  | cons a t ih => simp [List.filter_cons, isFileCreateEvent, ih]

/-- A `transcribe_audio` call invokes the recognition service at most once. -/
theorem transcribe_trace_recognize_le_one (tenv : TranscribeEnv) (p lang : String) :
    (transcribe_audio tenv p lang).snd.countP isRecognizeEvent ≤ 1 := by
  cases hc : tenv.existingFiles.contains p with
  | false =>
    have hm : p ∉ tenv.existingFiles := by simpa using hc
    simp [transcribe_audio, hc, hm]
  | true =>
    have hm : p ∈ tenv.existingFiles := by simpa using hc
    cases hread : tenv.audioReadExc with
    | some e => simp [transcribe_audio, hc, hm, hread, List.countP_cons, isRecognizeEvent]
    | none =>
      cases hout : tenv.outcome <;>
        simp [transcribe_audio, hc, hm, hread, hout, List.countP_cons, isRecognizeEvent]

/-- A `transcribe_audio` call never deletes a file. -/
theorem transcribe_trace_no_delete (tenv : TranscribeEnv) (p lang : String) :
    (transcribe_audio tenv p lang).snd.countP isFileDeleteEvent = 0 := by
  cases hc : tenv.existingFiles.contains p with
  | false =>
    have hm : p ∉ tenv.existingFiles := by simpa using hc
    simp [transcribe_audio, hc, hm]
  | true =>
    have hm : p ∈ tenv.existingFiles := by simpa using hc
    cases hread : tenv.audioReadExc with
    | some e => simp [transcribe_audio, hc, hm, hread, List.countP_cons, isFileDeleteEvent]
    | none =>
      cases hout : tenv.outcome <;>
        simp [transcribe_audio, hc, hm, hread, hout, List.countP_cons, isFileDeleteEvent]

/-- `C7`: the three transcription failure modes produce three distinct error
dictionaries (`sr.UnknownValueError`, `sr.RequestError e`, any other
exception `e`); and when capture succeeds but transcription fails, the
combined flow returns exactly the transcription error dictionary (status
500), invokes the recognition service at most once (no retry), and performs
no file deletion. -/
theorem transcription_failures_distinguished_and_surfaced
    (files : List String) (p lang e1 e2 : String)
    (cenv : CaptureEnv) (tenv : TranscribeEnv) (tn : String) (d cs : Nat)
    (hp : files.contains p = true)
    (hw : cenv.wasapiOk = true)
    (hwave : cenv.waveOpenExc = none)
    (hso : cenv.streamOpenExc = none)
    (hsr : cenv.streamRunExc = none)
    (hres : (resolveCaptureDevice cenv.devices cenv.default_speakers).isSome = true)
    (hfail : ((transcribe_audio tenv (abspath cenv.cwd (tn ++ ".wav")) lang).fst.error).isSome
      = true) :
    (transcribe_audio ⟨files, none, RecognizeOutcome.unknownValue⟩ p lang).fst =
      errResult "Google Speech Recognition could not understand the audio" ∧
    (transcribe_audio ⟨files, none, RecognizeOutcome.requestError e1⟩ p lang).fst =
      errResult ("Google Speech Recognition request failed: " ++ e1) ∧
    (transcribe_audio ⟨files, none, RecognizeOutcome.otherFailure e2⟩ p lang).fst =
      errResult ("Transcription failed: " ++ e2) ∧
    (capture_and_transcribe_endpoint cenv tenv tn d cs lang).fst =
      ((transcribe_audio tenv (abspath cenv.cwd (tn ++ ".wav")) lang).fst, 500) ∧
    (capture_and_transcribe_endpoint cenv tenv tn d cs lang).snd.countP
      isRecognizeEvent ≤ 1 ∧
    (capture_and_transcribe_endpoint cenv tenv tn d cs lang).snd.countP
      isFileDeleteEvent = 0 := by
  have hm : p ∈ files := by simpa using hp
  obtain ⟨dev, hdev⟩ := Option.isSome_iff_exists.mp hres
  have hc := capture_audio_success_spec cenv dev tn d cs hw hwave hso hsr hdev
  obtain ⟨msg, hmsg⟩ := Option.isSome_iff_exists.mp hfail
  have htr : (capture_and_transcribe_endpoint cenv tenv tn d cs lang).snd =
      (capture_audio cenv tn d cs).snd ++
        (transcribe_audio tenv (abspath cenv.cwd (tn ++ ".wav")) lang).snd := by
    simp [capture_and_transcribe_endpoint, hc, okCapture, hmsg]
  have hcap0 : (capture_audio cenv tn d cs).snd.countP isRecognizeEvent = 0 := by
    rw [hc]
    simp [List.countP_cons, List.countP_append, isRecognizeEvent,
      countP_recognize_map_writeFrames]
  have hcap1 : (capture_audio cenv tn d cs).snd.countP isFileDeleteEvent = 0 := by
    rw [hc]
    simp [List.countP_cons, List.countP_append, isFileDeleteEvent,
      countP_delete_map_writeFrames]
  refine ⟨?_, ?_, ?_, ?_, ?_, ?_⟩
  · simp [transcribe_audio, hm]
  · simp [transcribe_audio, hm]
  · simp [transcribe_audio, hm]
  · simp [capture_and_transcribe_endpoint, hc, okCapture, hmsg]
  · rw [htr, List.countP_append, hcap0]
    have := transcribe_trace_recognize_le_one tenv (abspath cenv.cwd (tn ++ ".wav")) lang
    omega
  · rw [htr, List.countP_append, hcap1]
    have := transcribe_trace_no_delete tenv (abspath cenv.cwd (tn ++ ".wav")) lang
    omega

/-- Witness for `C7`: concrete run where the recogniser raises
`sr.UnknownValueError` after a successful capture. -/
theorem transcription_failures_distinguished_and_surfaced_witness :
    (transcribe_audio ⟨["/rec/t1.wav"], none, RecognizeOutcome.unknownValue⟩
        "/rec/t1.wav" "en-US").fst =
      errResult "Google Speech Recognition could not understand the audio" ∧
    (transcribe_audio ⟨["/rec/t1.wav"], none, RecognizeOutcome.requestError "http 500"⟩
        "/rec/t1.wav" "en-US").fst =
      errResult ("Google Speech Recognition request failed: " ++ "http 500") ∧
    (transcribe_audio ⟨["/rec/t1.wav"], none, RecognizeOutcome.otherFailure "boom"⟩
        "/rec/t1.wav" "en-US").fst =
      errResult ("Transcription failed: " ++ "boom") ∧
    (capture_and_transcribe_endpoint cenvOk tenvUnknown "t1" 2 512 "en-US").fst =
      ((transcribe_audio tenvUnknown (abspath cenvOk.cwd ("t1" ++ ".wav")) "en-US").fst,
        500) ∧
    (capture_and_transcribe_endpoint cenvOk tenvUnknown "t1" 2 512 "en-US").snd.countP
      isRecognizeEvent ≤ 1 ∧
    (capture_and_transcribe_endpoint cenvOk tenvUnknown "t1" 2 512 "en-US").snd.countP
      isFileDeleteEvent = 0 :=
  transcription_failures_distinguished_and_surfaced ["/rec/t1.wav"] "/rec/t1.wav"
    "en-US" "http 500" "boom" cenvOk tenvUnknown "t1" 2 512 (by decide) rfl rfl rfl rfl
    (by decide) (by decide)

/-- `C8`: when capture succeeds and the recogniser returns text `t`, the
combined flow returns the success dictionary carrying the captured file's
absolute path and the text `t`, both unchanged, with HTTP status 200. -/
theorem combined_flow_success_returns_path_and_text
    (cenv : CaptureEnv) (tenv : TranscribeEnv) (tn lang t : String) (d cs : Nat)
    (hw : cenv.wasapiOk = true)
    (hwave : cenv.waveOpenExc = none)
    (hso : cenv.streamOpenExc = none)
    (hsr : cenv.streamRunExc = none)
    (hres : (resolveCaptureDevice cenv.devices cenv.default_speakers).isSome = true)
    (hex : tenv.existingFiles.contains (abspath cenv.cwd (tn ++ ".wav")) = true)
    (hread : tenv.audioReadExc = none)
    (hok : tenv.outcome = RecognizeOutcome.ok t) :
    (capture_and_transcribe_endpoint cenv tenv tn d cs lang).fst =
      (combineOk (tn ++ ".wav") (abspath cenv.cwd (tn ++ ".wav")) t, 200) := by
  obtain ⟨dev, hdev⟩ := Option.isSome_iff_exists.mp hres
  have hc := capture_audio_success_spec cenv dev tn d cs hw hwave hso hsr hdev
  have hm : abspath cenv.cwd (tn ++ ".wav") ∈ tenv.existingFiles := by simpa using hex
  have ht : transcribe_audio tenv (abspath cenv.cwd (tn ++ ".wav")) lang =
      (okTranscribe t,
       [Event.audioFileRead (abspath cenv.cwd (tn ++ ".wav")),
        Event.recognizeCall (abspath cenv.cwd (tn ++ ".wav")) lang]) := by
    simp [transcribe_audio, hm, hread, hok]
  simp [capture_and_transcribe_endpoint, hc, ht, okCapture, okTranscribe, combineOk]

/-- Witness for `C8`: scenario C — capture into `/rec/t1.wav`, recogniser
returns "hello world", the combined flow returns both unchanged. -/
theorem combined_flow_success_returns_path_and_text_witness :
    (capture_and_transcribe_endpoint cenvOk tenvHello "t1" 2 512 "en-US").fst =
      (combineOk ("t1" ++ ".wav") (abspath cenvOk.cwd ("t1" ++ ".wav")) "hello world",
        200) :=
  combined_flow_success_returns_path_and_text cenvOk tenvHello "t1" "en-US"
    "hello world" 2 512 rfl rfl rfl rfl (by decide) (by decide) rfl rfl

/-- `C9`: every capture invocation creates at most one container file, any
created file is named `track_name ++ ".wav"`, and a success result's
`filepath` is the absolute path of that file. -/
theorem capture_single_deterministic_artifact
    (cenv : CaptureEnv) (tn : String) (d cs : Nat) :
    ((capture_audio cenv tn d cs).snd.filter isFileCreateEvent = [] ∨
     (capture_audio cenv tn d cs).snd.filter isFileCreateEvent =
       [Event.fileCreate (tn ++ ".wav")]) ∧
    ((capture_audio cenv tn d cs).fst.success = some true →
      (capture_audio cenv tn d cs).fst.filepath =
        some (abspath cenv.cwd (tn ++ ".wav"))) := by
  cases hw : cenv.wasapiOk with
  | false =>
    constructor
    · left; simp [capture_audio, hw]
    · simp [capture_audio, hw, errResult]
  | true =>
    cases hres : resolveCaptureDevice cenv.devices cenv.default_speakers with
    | none =>
      constructor
      · left; simp [capture_audio, hw, hres]
      · simp [capture_audio, hw, hres, errResult]
    | some dev =>
      cases hwave : cenv.waveOpenExc with
      | some e =>
        constructor
        · left; simp [capture_audio, hw, hres, hwave]
        · simp [capture_audio, hw, hres, hwave, errResult]
      | none =>
        cases hso : cenv.streamOpenExc with
        | some e =>
          constructor
          · right
            simp [capture_audio, hw, hres, hwave, hso, List.filter_cons,
              isFileCreateEvent]
          · simp [capture_audio, hw, hres, hwave, hso, errResult]
        | none =>
          cases hsr : cenv.streamRunExc with
          | some e =>
            constructor
            · right
              simp [capture_audio, hw, hres, hwave, hso, hsr, List.filter_cons,
                List.filter_append, isFileCreateEvent, filter_fileCreate_map_writeFrames]
            · simp [capture_audio, hw, hres, hwave, hso, hsr, errResult]
          | none =>
            constructor
            · right
              simp [capture_audio, hw, hres, hwave, hso, hsr, List.filter_cons,
                List.filter_append, isFileCreateEvent, filter_fileCreate_map_writeFrames]
            · simp [capture_audio, hw, hres, hwave, hso, hsr, okCapture, abspath]

/-- Witness for `C9` at a concrete fault-free environment. -/
theorem capture_single_deterministic_artifact_witness :
    ((capture_audio cenvOk "t1" 2 512).snd.filter isFileCreateEvent = [] ∨
     (capture_audio cenvOk "t1" 2 512).snd.filter isFileCreateEvent =
       [Event.fileCreate ("t1" ++ ".wav")]) ∧
    ((capture_audio cenvOk "t1" 2 512).fst.success = some true →
      (capture_audio cenvOk "t1" 2 512).fst.filepath =
        some (abspath cenvOk.cwd ("t1" ++ ".wav"))) :=
  capture_single_deterministic_artifact cenvOk "t1" 2 512

/-- `C10`: for a path that does not exist on disk, `transcribe_audio` returns
the failure dictionary `{"error": "Audio file not found: " ++ p}` with an
empty effect trace — in particular the recognition service is never
invoked. -/
theorem transcribe_missing_file_no_service_call
    (tenv : TranscribeEnv) (p lang : String)
    (h : tenv.existingFiles.contains p = false) :
    transcribe_audio tenv p lang =
      (errResult ("Audio file not found: " ++ p), []) ∧
    (transcribe_audio tenv p lang).snd.countP isRecognizeEvent = 0 := by
  have hm : p ∉ tenv.existingFiles := by simpa using h
  constructor
  · simp [transcribe_audio, h, hm]
  · simp [transcribe_audio, h, hm]

/-- Witness for `C10`: no files exist, so transcribing "/rec/t1.wav" fails
with the not-found message and no service call. -/
theorem transcribe_missing_file_no_service_call_witness :
    transcribe_audio tenvEmpty "/rec/t1.wav" "en-US" =
      (errResult ("Audio file not found: " ++ "/rec/t1.wav"), []) ∧
    (transcribe_audio tenvEmpty "/rec/t1.wav" "en-US").snd.countP
      isRecognizeEvent = 0 :=
  transcribe_missing_file_no_service_call tenvEmpty "/rec/t1.wav" "en-US" rfl
